import Mathlib

/-!
Verification of the kak-ui JSON-RPC codec (src/src/lib.rs).

The development shallowly embeds the codec: the JSON value model mirrors what
serde_json hands to the derived deserializers, decoding is explicit recursion
returning a three-way result (success, typed decode error, or panic, since the
color visitor can index out of bounds), and encoding is a pure function to the
JSON value model. Rust u32 fields are modelled as Nat with the explicit bound
4294967295 enforced at decode time. Rust string slicing such as x[..4] is
byte-indexed and panics both when the index exceeds the byte length and when
it falls inside a multi-byte UTF-8 character; it is modelled here byte-exactly
through an explicit UTF-8 byte-length computation on the character sequence.
-/

namespace KakUi

/-- JSON values as seen by the derived serde deserializers. The constructor
int models a JSON integer literal (serde_json u64 or i64); numFrac models a
JSON number written with a decimal point or exponent, which serde_json parses
as f64 and which therefore fails every integer, bool or string
deserialization in this codec, so only its literal text is kept. -/
inductive Json where
  | null
  | bool (b : Bool)
  | int (i : Int)
  | numFrac (lit : String)
  | str (s : String)
  | arr (elems : List Json)
  | obj (fields : List (String × Json))
  deriving Repr

/-- Error taxonomy of the spec: MalformedMessage for structural shape, arity
and unknown-discriminant failures (serde derived errors), InvalidColor for an
unrecognized color token (the invalid_value error raised by
ColorVisitor::visit_str), InvalidAttribute for an unrecognized attribute
keyword (the unknown-variant error of the derived KakAttribute decoder). -/
inductive DecodeError where
  | malformed (msg : String)
  | invalidColor (token : String)
  | invalidAttribute (token : String)
  deriving Repr, DecidableEq

/-- Result of running a decoder: success, a typed decode error surfaced to
the caller, or a Rust panic (reachable in this codec only through the
out-of-bounds string slice in ColorVisitor::visit_str). -/
inductive DRes (α : Type) where
  | ok (value : α)
  | err (e : DecodeError)
  | panicked
  deriving Repr

def DRes.bind {α β : Type} : DRes α → (α → DRes β) → DRes β
  | .ok a, f => f a
  | .err e, _ => .err e
  | .panicked, _ => .panicked

instance : Monad DRes where
  pure := DRes.ok
  bind := DRes.bind

/-- True exactly when the result is a MalformedMessage decode error: not a
success, not a panic, not one of the color or attribute error kinds. -/
def DRes.isMalformed {α : Type} : DRes α → Bool
  | .err (.malformed _) => true
  | _ => false

/-- KakColor from the source: nine named colors plus RGB and RGBA carrying
the raw payload string. -/
inductive KakColor where
  | RGB (payload : String)
  | RGBA (payload : String)
  | Black
  | Red
  | Green
  | Yellow
  | Blue
  | Purple
  | Cyan
  | White
  | Default
  deriving Repr, DecidableEq

/-- Number of bytes of the UTF-8 encoding of one character. -/
def charUtf8Len (c : Char) : Nat :=
  if c.val < 0x80 then 1
  else if c.val < 0x800 then 2
  else if c.val < 0x10000 then 3
  else 4

/-- Characters covering the first n bytes of the UTF-8 encoding of a
character sequence: some when byte position n is in bounds and falls on a
character boundary, none when n exceeds the byte length or cuts a
multi-byte character in half (exactly the two situations in which the Rust
byte slice x[..n] panics). -/
def takeBytes : List Char → Nat → Option (List Char)
  | _, 0 => some []
  | [], _ + 1 => none
  | c :: cs, n + 1 =>
      if charUtf8Len c ≤ n + 1 then
        (takeBytes cs (n + 1 - charUtf8Len c)).map (fun t => c :: t)
      else none

/-- The Rust byte slice x[..n] on a string: some slice on success, none
when the slice operation panics (index out of bounds or not on a character
boundary). -/
def byteSliceTo (s : String) (n : Nat) : Option String :=
  (takeBytes s.data n).map String.mk

/-- ColorVisitor::visit_str from the source. The Rust match first compares
against the nine keyword literals; the fallback arm evaluates x[..4] == "rgb:"
and then x[..5] == "rgba:". The source performs no length or boundary test,
so whenever a required byte slice is out of bounds or cuts a multi-byte
character the decoder panics. When the 4-byte slice equals rgb: the first
four bytes are four ASCII characters, so the Rust remainder slice x[4..] is
the drop of four characters, and likewise x[5..] after matching rgba:. -/
def colorVisitStr (s : String) : DRes KakColor :=
  if s = "black" then .ok .Black
  else if s = "red" then .ok .Red
  else if s = "green" then .ok .Green
  else if s = "yellow" then .ok .Yellow
  else if s = "blue" then .ok .Blue
  else if s = "purple" then .ok .Purple
  else if s = "cyan" then .ok .Cyan
  else if s = "white" then .ok .White
  else if s = "default" then .ok .Default
  else
    match byteSliceTo s 4 with
    | none => .panicked
    | some p =>
        if p = "rgb:" then .ok (.RGB (String.mk (s.data.drop 4)))
        else
          match byteSliceTo s 5 with
          | none => .panicked
          | some q =>
              if q = "rgba:" then .ok (.RGBA (String.mk (s.data.drop 5)))
              else .err (.invalidColor s)

/-- The nine color keyword literals, in source match order. -/
def colorKeywords : List String :=
  ["black", "red", "green", "yellow", "blue", "purple", "cyan", "white",
   "default"]

/-- Deserialize for KakColor: deserialize_str hands a JSON string to
ColorVisitor; any non-string JSON value is a serde type error. -/
def decodeColor : Json → DRes KakColor
  | .str s => colorVisitStr s
  | _ => .err (.malformed "invalid type, expected a kakoune color string")

/-- KakAttribute from the source. -/
inductive KakAttribute where
  | Underline
  | Reverse
  | Blink
  | Bold
  | Dim
  | Italic
  | FinalFg
  | FinalBg
  | FinalAttr
  deriving Repr, DecidableEq

/-- The nine attribute keywords, the snake_case renamings of the variant
names of KakAttribute. -/
def attributeKeywords : List String :=
  ["underline", "reverse", "blink", "bold", "dim", "italic", "final_fg",
   "final_bg", "final_attr"]

/-- Derived Deserialize for KakAttribute with rename_all snake_case: a unit
variant deserializes from the JSON string equal to its renamed name; an
unknown string is the unknown-variant error (InvalidAttribute in the spec
taxonomy); a non-string JSON value is a serde type error. -/
def decodeAttribute : Json → DRes KakAttribute
  | .str s =>
      if s = "underline" then .ok .Underline
      else if s = "reverse" then .ok .Reverse
      else if s = "blink" then .ok .Blink
      else if s = "bold" then .ok .Bold
      else if s = "dim" then .ok .Dim
      else if s = "italic" then .ok .Italic
      else if s = "final_fg" then .ok .FinalFg
      else if s = "final_bg" then .ok .FinalBg
      else if s = "final_attr" then .ok .FinalAttr
      else .err (.invalidAttribute s)
  | _ => .err (.malformed "invalid type, expected an attribute string")

/-- Deserialization of a Rust String field: the JSON value must be a string. -/
def decodeString : Json → DRes String
  | .str s => .ok s
  | _ => .err (.malformed "invalid type, expected a string")

/-- Deserialization of a bool field. -/
def decodeBool : Json → DRes Bool
  | .bool b => .ok b
  | _ => .err (.malformed "invalid type, expected a bool")

/-- Deserialization of a u32 field by serde_json: succeeds exactly on an
integer literal in the range 0 .. 4294967295; a negative or too-large
integer is an invalid-value error and a fractional number (f64) is an
invalid-type error. -/
def decodeU32 : Json → DRes Nat
  | .int i =>
      if 0 ≤ i ∧ i ≤ 4294967295 then .ok i.toNat
      else .err (.malformed "invalid value, expected u32")
  | _ => .err (.malformed "invalid type, expected u32")

/-- Sequential element decoding of a JSON array, left to right, first error
or panic wins, as the serde seq visitor for Vec does. -/
def decodeElems {α : Type} (d : Json → DRes α) : List Json → DRes (List α)
  | [] => .ok []
  | x :: rest => do
      let a ← d x
      let as ← decodeElems d rest
      pure (a :: as)

/-- Deserialization of a Vec field: any JSON array whose elements all decode. -/
def decodeList {α : Type} (d : Json → DRes α) : Json → DRes (List α)
  | .arr xs => decodeElems d xs
  | _ => .err (.malformed "invalid type, expected an array")

/-- Required-field access in a JSON object, as the derived struct visitors
report a missing field. Field values are decoded in declaration order, which
matches the serde map visitor whenever the wire object lists the fields in
that order (as kakoune emits them). -/
def getField (fields : List (String × Json)) (name : String) : DRes Json :=
  match fields.lookup name with
  | some v => .ok v
  | none => .err (.malformed ("missing field " ++ name))

/-- KakFace from the source. -/
structure KakFace where
  fg : KakColor
  bg : KakColor
  attributes : List KakAttribute
  deriving Repr, DecidableEq

/-- Derived Deserialize for KakFace: a JSON object with required fields fg,
bg and attributes. -/
def decodeFace : Json → DRes KakFace
  | .obj fields => do
      let fg ← DRes.bind (getField fields "fg") decodeColor
      let bg ← DRes.bind (getField fields "bg") decodeColor
      let attributes ←
        DRes.bind (getField fields "attributes") (decodeList decodeAttribute)
      pure { fg := fg, bg := bg, attributes := attributes }
  | _ => .err (.malformed "invalid type, expected a face object")

/-- KakAtom from the source. -/
structure KakAtom where
  face : KakFace
  contents : String
  deriving Repr, DecidableEq

/-- Derived Deserialize for KakAtom: a JSON object with required fields face
and contents. -/
def decodeAtom : Json → DRes KakAtom
  | .obj fields => do
      let face ← DRes.bind (getField fields "face") decodeFace
      let contents ← DRes.bind (getField fields "contents") decodeString
      pure { face := face, contents := contents }
  | _ => .err (.malformed "invalid type, expected an atom object")

/-- KakLine from the source: a Vec of KakAtom. -/
def KakLine : Type := List KakAtom
  deriving Repr, DecidableEq

/-- Deserialize for KakLine. -/
def decodeLine : Json → DRes KakLine :=
  decodeList decodeAtom

/-- Deserialize for a Vec of KakLine. -/
def decodeLines : Json → DRes (List KakLine) :=
  decodeList decodeLine

/-- KakCoord from the source: two u32 fields. -/
structure KakCoord where
  line : Nat
  column : Nat
  deriving Repr, DecidableEq

/-- Derived Deserialize for KakCoord: a JSON object with required u32 fields
line and column. -/
def decodeCoord : Json → DRes KakCoord
  | .obj fields => do
      let line ← DRes.bind (getField fields "line") decodeU32
      let column ← DRes.bind (getField fields "column") decodeU32
      pure { line := line, column := column }
  | _ => .err (.malformed "invalid type, expected a coordinate object")

/-- Deserialize for the HashMap of String to String carried by
set_ui_options, modelled as the association list of the JSON object in wire
order (serde_json objects have unique keys). Every value must be a string. -/
def decodePairs : List (String × Json) → DRes (List (String × String))
  | [] => .ok []
  | (k, v) :: rest => do
      let s ← decodeString v
      let r ← decodePairs rest
      pure ((k, s) :: r)

/-- Deserialize for HashMap of String to String: a JSON object. -/
def decodeStringMap : Json → DRes (List (String × String))
  | .obj fields => decodePairs fields
  | _ => .err (.malformed "invalid type, expected an object of strings")

/-- One step of the serde seq visitor for a fixed-arity tuple: decoding the
next element fails with an invalid-length error when the array is exhausted,
otherwise the element decoder runs (and may itself error or panic). -/
def seqNext {α : Type} (d : Json → DRes α) :
    List Json → DRes (α × List Json)
  | [] => .err (.malformed "invalid length for params")
  | x :: rest => DRes.bind (d x) fun a => .ok (a, rest)

/-- End-of-sequence check performed by serde_json after a fixed-arity tuple
visitor returns: leftover elements are an error. -/
def seqEnd : List Json → DRes Unit
  | [] => .ok ()
  | _ :: _ => .err (.malformed "trailing params elements")

/-- Requirement that the params content is a JSON array. -/
def asArr : Json → DRes (List Json)
  | .arr xs => .ok xs
  | _ => .err (.malformed "invalid type, expected params array")

/-- RawIncomingRequest from the source: the wire shape layer, a serde
adjacently tagged enum (tag method, content params) with positional tuple
payloads. Single-value payloads are wrapped in one-element tuples in the
source ((u32,), (HashMap,), (bool,)) and MenuHide and InfoHide carry the
zero-length array type; here the wrapping is erased in the constructor
arguments while the decoder below enforces the corresponding wire arity. -/
inductive RawIncomingRequest where
  | Draw (lines : List KakLine) (face1 : KakFace) (face2 : KakFace)
  | DrawStatus (line1 : KakLine) (line2 : KakLine) (face : KakFace)
  | MenuShow (items : List KakLine) (coord : KakCoord) (face1 : KakFace)
      (face2 : KakFace) (style : String)
  | MenuSelect (selected : Nat)
  | MenuHide
  | InfoShow (line : KakLine) (content : List KakLine) (coord : KakCoord)
      (face : KakFace) (style : String)
  | InfoHide
  | SetCursor (mode : String) (coord : KakCoord)
  | SetUiOptions (options : List (String × String))
  | Refresh (force : Bool)
  deriving Repr

/-- The snake_case method names of the ten RawIncomingRequest variants. -/
def incomingMethods : List String :=
  ["draw", "draw_status", "menu_show", "menu_select", "menu_hide",
   "info_show", "info_hide", "set_cursor", "set_ui_options", "refresh"]

/-- Derived Deserialize for the adjacently tagged RawIncomingRequest over
the flattened fields: the method field selects the variant and the params
field is decoded as that variant payload, with per-slot decoding left to
right followed by the exact-arity end check; an unknown method string is the
unknown-variant error. -/
def decodeRawIncoming (fields : List (String × Json)) :
    DRes RawIncomingRequest := do
  let m ← DRes.bind (getField fields "method") decodeString
  let p ← getField fields "params"
  if m = "draw" then do
    let xs ← asArr p
    let (a, xs) ← seqNext decodeLines xs
    let (b, xs) ← seqNext decodeFace xs
    let (c, xs) ← seqNext decodeFace xs
    let _ ← seqEnd xs
    pure (.Draw a b c)
  else if m = "draw_status" then do
    let xs ← asArr p
    let (a, xs) ← seqNext decodeLine xs
    let (b, xs) ← seqNext decodeLine xs
    let (c, xs) ← seqNext decodeFace xs
    let _ ← seqEnd xs
    pure (.DrawStatus a b c)
  else if m = "menu_show" then do
    let xs ← asArr p
    let (a, xs) ← seqNext decodeLines xs
    let (b, xs) ← seqNext decodeCoord xs
    let (c, xs) ← seqNext decodeFace xs
    let (d, xs) ← seqNext decodeFace xs
    let (e, xs) ← seqNext decodeString xs
    let _ ← seqEnd xs
    pure (.MenuShow a b c d e)
  else if m = "menu_select" then do
    let xs ← asArr p
    let (a, xs) ← seqNext decodeU32 xs
    let _ ← seqEnd xs
    pure (.MenuSelect a)
  else if m = "menu_hide" then do
    let xs ← asArr p
    let _ ← seqEnd xs
    pure .MenuHide
  else if m = "info_show" then do
    let xs ← asArr p
    let (a, xs) ← seqNext decodeLine xs
    let (b, xs) ← seqNext decodeLines xs
    let (c, xs) ← seqNext decodeCoord xs
    let (d, xs) ← seqNext decodeFace xs
    let (e, xs) ← seqNext decodeString xs
    let _ ← seqEnd xs
    pure (.InfoShow a b c d e)
  else if m = "info_hide" then do
    let xs ← asArr p
    let _ ← seqEnd xs
    pure .InfoHide
  else if m = "set_cursor" then do
    let xs ← asArr p
    let (a, xs) ← seqNext decodeString xs
    let (b, xs) ← seqNext decodeCoord xs
    let _ ← seqEnd xs
    pure (.SetCursor a b)
  else if m = "set_ui_options" then do
    let xs ← asArr p
    let (a, xs) ← seqNext decodeStringMap xs
    let _ ← seqEnd xs
    pure (.SetUiOptions a)
  else if m = "refresh" then do
    let xs ← asArr p
    let (a, xs) ← seqNext decodeBool xs
    let _ ← seqEnd xs
    pure (.Refresh a)
  else .err (.malformed ("unknown method " ++ m))

/-- IncomingRequest from the source: the public domain shape layer with
named fields. -/
inductive IncomingRequest where
  | Draw (lines : List KakLine) (default_face : KakFace)
      (padding_face : KakFace)
  | DrawStatus (status_line : KakLine) (mode_line : KakLine)
      (default_face : KakFace)
  | MenuShow (items : List KakLine) (anchor : KakCoord)
      (selected_item_face : KakFace) (menu_face : KakFace) (style : String)
  | MenuSelect (selected : Nat)
  | MenuHide
  | InfoShow (title : KakLine) (content : List KakLine) (anchor : KakCoord)
      (face : KakFace) (style : String)
  | InfoHide
  | SetCursor (mode : String) (coord : KakCoord)
  | SetUiOptions (options : List (String × String))
  | Refresh (force : Bool)
  deriving Repr

/-- The From impl of IncomingRequest for RawIncomingRequest (source lines
216 to 253): a pure, total match sending positional slot i of each raw
variant to the i-th named field of the corresponding domain variant,
unchanged. -/
def rawToIncoming : RawIncomingRequest → IncomingRequest
  | .Draw a b c => .Draw a b c
  | .DrawStatus a b c => .DrawStatus a b c
  | .MenuShow a b c d e => .MenuShow a b c d e
  | .MenuSelect a => .MenuSelect a
  | .MenuHide => .MenuHide
  | .InfoShow a b c d e => .InfoShow a b c d e
  | .InfoHide => .InfoHide
  | .SetCursor a b => .SetCursor a b
  | .SetUiOptions a => .SetUiOptions a
  | .Refresh a => .Refresh a

/-- Deserialize for the JsonRpc envelope: the message must be a JSON object
with a jsonrpc field whose value is a string (the String field of the
JsonRpc struct); the string value itself is never inspected. The remaining
fields are handed on (serde flatten) for the inner value. -/
def decodeJsonRpcFields (j : Json) :
    DRes (String × List (String × Json)) :=
  match j with
  | .obj fields =>
      match fields.lookup "jsonrpc" with
      | some (.str v) => .ok (v, fields.filter (fun kv => kv.1 ≠ "jsonrpc"))
      | some _ => .err (.malformed "invalid type for field jsonrpc")
      | none => .err (.malformed "missing field jsonrpc")
  | _ => .err (.malformed "invalid type, expected a message object")

/-- Deserialize for IncomingRequest from the source: decode the JsonRpc
envelope around RawIncomingRequest, then apply the infallible From
conversion to the domain shape. -/
def decodeIncoming (j : Json) : DRes IncomingRequest :=
  DRes.bind (decodeJsonRpcFields j) fun vrest =>
    DRes.bind (decodeRawIncoming vrest.2) fun raw =>
      .ok (rawToIncoming raw)

/-- OutgoingRequest from the source: the public domain shape layer for
frontend-to-editor messages. u32 fields are modelled as Nat. -/
inductive OutgoingRequest where
  | Keys (keys : List String)
  | Resize (rows : Nat) (columns : Nat)
  | Scroll (amount : Nat)
  | MouseMove (line : Nat) (column : Nat)
  | MousePress (button : String) (line : Nat) (column : Nat)
  | MouseRelease (button : String) (line : Nat) (column : Nat)
  | MenuSelect (index : Nat)
  deriving Repr

/-- RawOutgoingRequest from the source: the positional wire shape. Scroll
and MenuSelect carry one-element tuples in the source; the wrapping is
erased here and reinstated by the serializer as a one-element params array. -/
inductive RawOutgoingRequest where
  | Keys (keys : List String)
  | Resize (a : Nat) (b : Nat)
  | Scroll (a : Nat)
  | MouseMove (a : Nat) (b : Nat)
  | MousePress (s : String) (a : Nat) (b : Nat)
  | MouseRelease (s : String) (a : Nat) (b : Nat)
  | MenuSelect (a : Nat)
  deriving Repr

/-- The From impl of RawOutgoingRequest for OutgoingRequest (source lines
307 to 332): pure positional relabeling of the named fields, in declared
order. -/
def rawFromOutgoing : OutgoingRequest → RawOutgoingRequest
  | .Keys vec => .Keys vec
  | .Resize a b => .Resize a b
  | .Scroll a => .Scroll a
  | .MouseMove a b => .MouseMove a b
  | .MousePress a b c => .MousePress a b c
  | .MouseRelease a b c => .MouseRelease a b c
  | .MenuSelect a => .MenuSelect a

/-- Derived Serialize for the adjacently tagged RawOutgoingRequest: the
snake_case method name and the params value. A Vec payload (Keys)
serializes as the array of its elements; a tuple payload serializes as the
array of its slots in order; a one-element tuple payload (Scroll,
MenuSelect) serializes as a one-element array. -/
def serializeRawOutgoing : RawOutgoingRequest → String × Json
  | .Keys ks => ("keys", .arr (ks.map Json.str))
  | .Resize a b => ("resize", .arr [.int a, .int b])
  | .Scroll a => ("scroll", .arr [.int a])
  | .MouseMove a b => ("mouse_move", .arr [.int a, .int b])
  | .MousePress s a b => ("mouse_press", .arr [.str s, .int a, .int b])
  | .MouseRelease s a b => ("mouse_release", .arr [.str s, .int a, .int b])
  | .MenuSelect a => ("menu_select", .arr [.int a])

/-- JsonRpc envelope struct from the source. -/
structure JsonRpc (T : Type) where
  jsonrpc : String
  inner : T

/-- JsonRpc::new from the source: wraps a value with the fixed version
string. -/
def JsonRpc.new {T : Type} (inner : T) : JsonRpc T :=
  { jsonrpc := "2.0", inner := inner }

/-- Derived Serialize for the JsonRpc envelope around RawOutgoingRequest:
the jsonrpc struct field first, then the flattened adjacently tagged inner
value (method, then params). -/
def serializeJsonRpcOutgoing (v : JsonRpc RawOutgoingRequest) : Json :=
  let mp := serializeRawOutgoing v.inner
  .obj [("jsonrpc", .str v.jsonrpc), ("method", .str mp.1),
        ("params", mp.2)]

/-- Serialize impl of OutgoingRequest from the source: convert to the raw
wire shape, wrap with JsonRpc::new, serialize. -/
def serializeOutgoing (r : OutgoingRequest) : Json :=
  serializeJsonRpcOutgoing (JsonRpc.new (rawFromOutgoing r))

/-- A complete wire message object: jsonrpc version field, method name and
params content. This is the object shape serde produces and consumes for
this protocol. -/
def wireMsg (v : String) (m : String) (p : Json) : Json :=
  .obj [("jsonrpc", .str v), ("method", .str m), ("params", p)]

/-- The params field of a wire message object. -/
def paramsOf (j : Json) : Option Json :=
  match j with
  | .obj fields => fields.lookup "params"
  | _ => none

/-- C1: the claim says the color decoder tests the length before slicing and
therefore fails cleanly on tokens shorter than the tested prefix. The source
does not test the length: the fallback arm of ColorVisitor::visit_str slices
x[..4] unconditionally, so the three character token rgb (and likewise any
non-keyword token shorter than four characters, and any four character token
other than rgb: via the x[..5] slice) panics instead of returning a decode
error. This theorem evaluates the embedded code at the failing inputs. -/
theorem c1_color_short_token_panics :
    colorVisitStr "rgb" = .panicked ∧
    decodeColor (.str "rgb") = .panicked ∧
    colorVisitStr "abcd" = .panicked := by
  exact ⟨rfl, rfl, rfl⟩

/-- C3 counterexample: the claim states that any token that is neither a
keyword nor rgb:/rgba: prefixed fails with an InvalidColor decode error. The
two character token rg is such a token, yet the code panics on it (slice out
of bounds), so it produces no error value at all; and the five character
token of five alpha letters (ten UTF-8 bytes) is such a token too, yet the
code panics on it because byte 5 falls inside its third character, so even
restricting the claim to tokens of at least five characters would not make
it true. -/
theorem c3_counterexample_short_token :
    colorVisitStr "rg" = .panicked ∧
    colorVisitStr "rg" ≠ .err (.invalidColor "rg") ∧
    colorVisitStr "ααααα" = .panicked ∧
    colorVisitStr "ααααα" ≠ .err (.invalidColor "ααααα") := by
  refine ⟨rfl, ?_, rfl, ?_⟩
  · intro h
    exact DRes.noConfusion (h.symm.trans rfl)
  · intro h
    exact DRes.noConfusion (h.symm.trans rfl)

/-- C3 (amended): color decode matches the nine keyword literals case
sensitively; for a non-keyword token the byte slice x[..4] is taken: if that
slice succeeds (byte 4 in bounds and on a character boundary) and equals
rgb: the result is RGB carrying the remainder verbatim with no hex
validation; otherwise, if the byte slice x[..5] succeeds and equals rgba:
the result is RGBA carrying the remainder verbatim; if both slices succeed
and neither literal matches, decoding fails with InvalidColor (e.g. on
chartreuse); and whenever a required byte slice is out of bounds or cuts a
multi-byte character, the decoder panics instead of failing (the C1 bug). -/
theorem c3_color_decode_amended :
    (colorVisitStr "black" = .ok .Black ∧
     colorVisitStr "red" = .ok .Red ∧
     colorVisitStr "green" = .ok .Green ∧
     colorVisitStr "yellow" = .ok .Yellow ∧
     colorVisitStr "blue" = .ok .Blue ∧
     colorVisitStr "purple" = .ok .Purple ∧
     colorVisitStr "cyan" = .ok .Cyan ∧
     colorVisitStr "white" = .ok .White ∧
     colorVisitStr "default" = .ok .Default) ∧
    (∀ (s p : String), s ∉ colorKeywords →
        byteSliceTo s 4 = some p → p = "rgb:" →
        colorVisitStr s = .ok (.RGB (String.mk (s.data.drop 4)))) ∧
    (∀ (s p q : String), s ∉ colorKeywords →
        byteSliceTo s 4 = some p → p ≠ "rgb:" →
        byteSliceTo s 5 = some q → q = "rgba:" →
        colorVisitStr s = .ok (.RGBA (String.mk (s.data.drop 5)))) ∧
    (∀ (s p q : String), s ∉ colorKeywords →
        byteSliceTo s 4 = some p → p ≠ "rgb:" →
        byteSliceTo s 5 = some q → q ≠ "rgba:" →
        colorVisitStr s = .err (.invalidColor s)) ∧
    (∀ s : String, s ∉ colorKeywords → byteSliceTo s 4 = none →
        colorVisitStr s = .panicked) ∧
    (∀ (s p : String), s ∉ colorKeywords →
        byteSliceTo s 4 = some p → p ≠ "rgb:" →
        byteSliceTo s 5 = none → colorVisitStr s = .panicked) ∧
    colorVisitStr "chartreuse" = .err (.invalidColor "chartreuse") := by
  refine ⟨⟨rfl, rfl, rfl, rfl, rfl, rfl, rfl, rfl, rfl⟩, ?_, ?_, ?_, ?_,
    ?_, rfl⟩
  · intro s p hs hsl4 hp
    simp only [colorKeywords, List.mem_cons, List.not_mem_nil, or_false,
      not_or] at hs
    obtain ⟨h1, h2, h3, h4, h5, h6, h7, h8, h9⟩ := hs
    simp [colorVisitStr, h1, h2, h3, h4, h5, h6, h7, h8, h9, hsl4, hp]
  · intro s p q hs hsl4 hp hsl5 hq
    simp only [colorKeywords, List.mem_cons, List.not_mem_nil, or_false,
      not_or] at hs
    obtain ⟨h1, h2, h3, h4, h5, h6, h7, h8, h9⟩ := hs
    simp [colorVisitStr, h1, h2, h3, h4, h5, h6, h7, h8, h9, hsl4, hp,
      hsl5, hq]
  · intro s p q hs hsl4 hp hsl5 hq
    simp only [colorKeywords, List.mem_cons, List.not_mem_nil, or_false,
      not_or] at hs
    obtain ⟨h1, h2, h3, h4, h5, h6, h7, h8, h9⟩ := hs
    simp [colorVisitStr, h1, h2, h3, h4, h5, h6, h7, h8, h9, hsl4, hp,
      hsl5, hq]
  · intro s hs hsl4
    simp only [colorKeywords, List.mem_cons, List.not_mem_nil, or_false,
      not_or] at hs
    obtain ⟨h1, h2, h3, h4, h5, h6, h7, h8, h9⟩ := hs
    simp [colorVisitStr, h1, h2, h3, h4, h5, h6, h7, h8, h9, hsl4]
  · intro s p hs hsl4 hp hsl5
    simp only [colorKeywords, List.mem_cons, List.not_mem_nil, or_false,
      not_or] at hs
    obtain ⟨h1, h2, h3, h4, h5, h6, h7, h8, h9⟩ := hs
    simp [colorVisitStr, h1, h2, h3, h4, h5, h6, h7, h8, h9, hsl4, hp,
      hsl5]

/-- Witness for C3: the amended theorem applied at the concrete tokens
rgb:ff0000 and rgba:ff0000ff (successful byte slices), at a euro-sign token
whose slices succeed and match no literal (clean InvalidColor despite being
only three characters long), and at the never-a-boundary token of five
alpha letters through the panic conjunct. -/
theorem c3_color_decode_amended_witness :
    colorVisitStr "rgb:ff0000" = .ok (.RGB "ff0000") ∧
    colorVisitStr "rgba:ff0000ff" = .ok (.RGBA "ff0000ff") ∧
    colorVisitStr "€ab" = .err (.invalidColor "€ab") ∧
    colorVisitStr "αααααα" = .panicked := by
  refine ⟨?_, ?_, ?_, ?_⟩
  · exact c3_color_decode_amended.2.1 "rgb:ff0000" "rgb:" (by decide) rfl
      rfl
  · exact c3_color_decode_amended.2.2.1 "rgba:ff0000ff" "rgba" "rgba:"
      (by decide) rfl (by decide) rfl rfl
  · exact c3_color_decode_amended.2.2.2.1 "€ab" "€a" "€ab" (by decide) rfl
      (by decide) rfl (by decide)
  · exact c3_color_decode_amended.2.2.2.2.2.1 "αααααα" "αα" (by decide)
      rfl (by decide) rfl

theorem dres_bind_ok {α β : Type} (a : α) (f : α → DRes β) :
    DRes.bind (.ok a) f = f a := rfl

theorem dres_bindM_ok {α β : Type} (a : α) (f : α → DRes β) :
    (DRes.ok a >>= f) = f a := rfl

theorem dres_pure_eq_ok {α : Type} (a : α) :
    (pure a : DRes α) = DRes.ok a := rfl

theorem decodeString_str (s : String) :
    decodeString (Json.str s) = .ok s := rfl

theorem dres_bind_err {α β : Type} (e : DecodeError) (f : α → DRes β) :
    DRes.bind (.err e) f = .err e := rfl

theorem dres_bindM_err {α β : Type} (e : DecodeError) (f : α → DRes β) :
    ((DRes.err e : DRes α) >>= f) = .err e := rfl

/-- C2: for each of the ten incoming methods, the positional-to-named
relabeling (the From impl) maps slot i of each raw variant to the i-th
named field verbatim, and is a total Lean function, hence pure, total and
infallible; and a wire message with the documented arity whose slots decode
at the documented per-slot types decodes to the corresponding
IncomingRequest variant carrying exactly the decoded slot values in order. -/
theorem c2_incoming_relabeling :
    ((∀ a b c, rawToIncoming (.Draw a b c) = .Draw a b c) ∧
     (∀ a b c, rawToIncoming (.DrawStatus a b c) = .DrawStatus a b c) ∧
     (∀ a b c d e,
        rawToIncoming (.MenuShow a b c d e) = .MenuShow a b c d e) ∧
     (∀ a, rawToIncoming (.MenuSelect a) = .MenuSelect a) ∧
     rawToIncoming .MenuHide = .MenuHide ∧
     (∀ a b c d e,
        rawToIncoming (.InfoShow a b c d e) = .InfoShow a b c d e) ∧
     rawToIncoming .InfoHide = .InfoHide ∧
     (∀ a b, rawToIncoming (.SetCursor a b) = .SetCursor a b) ∧
     (∀ a, rawToIncoming (.SetUiOptions a) = .SetUiOptions a) ∧
     (∀ a, rawToIncoming (.Refresh a) = .Refresh a)) ∧
    ((∀ (v : String) (p1 p2 p3 : Json) a b c,
        decodeLines p1 = .ok a → decodeFace p2 = .ok b →
        decodeFace p3 = .ok c →
        decodeIncoming (wireMsg v "draw" (.arr [p1, p2, p3])) =
          .ok (.Draw a b c)) ∧
     (∀ (v : String) (p1 p2 p3 : Json) a b c,
        decodeLine p1 = .ok a → decodeLine p2 = .ok b →
        decodeFace p3 = .ok c →
        decodeIncoming (wireMsg v "draw_status" (.arr [p1, p2, p3])) =
          .ok (.DrawStatus a b c)) ∧
     (∀ (v : String) (p1 p2 p3 p4 p5 : Json) a b c d e,
        decodeLines p1 = .ok a → decodeCoord p2 = .ok b →
        decodeFace p3 = .ok c → decodeFace p4 = .ok d →
        decodeString p5 = .ok e →
        decodeIncoming (wireMsg v "menu_show" (.arr [p1, p2, p3, p4, p5])) =
          .ok (.MenuShow a b c d e)) ∧
     (∀ (v : String) (p : Json) n, decodeU32 p = .ok n →
        decodeIncoming (wireMsg v "menu_select" (.arr [p])) =
          .ok (.MenuSelect n)) ∧
     (∀ v : String,
        decodeIncoming (wireMsg v "menu_hide" (.arr [])) = .ok .MenuHide) ∧
     (∀ (v : String) (p1 p2 p3 p4 p5 : Json) a b c d e,
        decodeLine p1 = .ok a → decodeLines p2 = .ok b →
        decodeCoord p3 = .ok c → decodeFace p4 = .ok d →
        decodeString p5 = .ok e →
        decodeIncoming (wireMsg v "info_show" (.arr [p1, p2, p3, p4, p5])) =
          .ok (.InfoShow a b c d e)) ∧
     (∀ v : String,
        decodeIncoming (wireMsg v "info_hide" (.arr [])) = .ok .InfoHide) ∧
     (∀ (v : String) (p1 p2 : Json) a b,
        decodeString p1 = .ok a → decodeCoord p2 = .ok b →
        decodeIncoming (wireMsg v "set_cursor" (.arr [p1, p2])) =
          .ok (.SetCursor a b)) ∧
     (∀ (v : String) (p : Json) a, decodeStringMap p = .ok a →
        decodeIncoming (wireMsg v "set_ui_options" (.arr [p])) =
          .ok (.SetUiOptions a)) ∧
     (∀ (v : String) (p : Json) a, decodeBool p = .ok a →
        decodeIncoming (wireMsg v "refresh" (.arr [p])) =
          .ok (.Refresh a))) := by
  constructor
  · exact ⟨fun a b c => rfl, fun a b c => rfl, fun a b c d e => rfl,
      fun a => rfl, rfl, fun a b c d e => rfl, rfl, fun a b => rfl,
      fun a => rfl, fun a => rfl⟩
  refine ⟨?_, ?_, ?_, ?_, ?_, ?_, ?_, ?_, ?_, ?_⟩
  · intro v p1 p2 p3 a b c h1 h2 h3
    simp [decodeIncoming, wireMsg, decodeJsonRpcFields, decodeRawIncoming,
      getField, asArr, seqNext, seqEnd, rawToIncoming, List.lookup,
      decodeString_str, h1, h2, h3, dres_bind_ok, dres_bindM_ok,
      dres_pure_eq_ok]
  · intro v p1 p2 p3 a b c h1 h2 h3
    simp [decodeIncoming, wireMsg, decodeJsonRpcFields, decodeRawIncoming,
      getField, asArr, seqNext, seqEnd, rawToIncoming, List.lookup,
      decodeString_str, h1, h2, h3, dres_bind_ok, dres_bindM_ok,
      dres_pure_eq_ok]
  · intro v p1 p2 p3 p4 p5 a b c d e h1 h2 h3 h4 h5
    simp [decodeIncoming, wireMsg, decodeJsonRpcFields, decodeRawIncoming,
      getField, asArr, seqNext, seqEnd, rawToIncoming, List.lookup,
      decodeString_str, h1, h2, h3, h4, h5, dres_bind_ok, dres_bindM_ok,
      dres_pure_eq_ok]
  · intro v p n h
    simp [decodeIncoming, wireMsg, decodeJsonRpcFields, decodeRawIncoming,
      getField, asArr, seqNext, seqEnd, rawToIncoming, List.lookup,
      decodeString_str, h, dres_bind_ok, dres_bindM_ok, dres_pure_eq_ok]
  · intro v
    rfl
  · intro v p1 p2 p3 p4 p5 a b c d e h1 h2 h3 h4 h5
    simp [decodeIncoming, wireMsg, decodeJsonRpcFields, decodeRawIncoming,
      getField, asArr, seqNext, seqEnd, rawToIncoming, List.lookup,
      decodeString_str, h1, h2, h3, h4, h5, dres_bind_ok, dres_bindM_ok,
      dres_pure_eq_ok]
  · intro v
    rfl
  · intro v p1 p2 a b h1 h2
    simp [decodeIncoming, wireMsg, decodeJsonRpcFields, decodeRawIncoming,
      getField, asArr, seqNext, seqEnd, rawToIncoming, List.lookup,
      decodeString_str, h1, h2, dres_bind_ok, dres_bindM_ok,
      dres_pure_eq_ok]
  · intro v p a h
    simp [decodeIncoming, wireMsg, decodeJsonRpcFields, decodeRawIncoming,
      getField, asArr, seqNext, seqEnd, rawToIncoming, List.lookup,
      decodeString_str, h, dres_bind_ok, dres_bindM_ok, dres_pure_eq_ok]
  · intro v p a h
    simp [decodeIncoming, wireMsg, decodeJsonRpcFields, decodeRawIncoming,
      getField, asArr, seqNext, seqEnd, rawToIncoming, List.lookup,
      decodeString_str, h, dres_bind_ok, dres_bindM_ok, dres_pure_eq_ok]

/-- Witness for C2: the menu_select decode conjunct applied at the concrete
message with params the one-element array containing 7. -/
theorem c2_incoming_relabeling_witness :
    decodeIncoming (wireMsg "2.0" "menu_select" (.arr [.int 7])) =
      .ok (.MenuSelect 7) :=
  c2_incoming_relabeling.2.2.2.2.1 "2.0" (.int 7) 7 rfl

theorem decodeU32_shape (j : Json) :
    (∃ n, decodeU32 j = .ok n) ∨
      ∃ m, decodeU32 j = .err (.malformed m) := by
  cases j with
  | int i =>
      by_cases h : 0 ≤ i ∧ i ≤ 4294967295
      · exact .inl ⟨i.toNat, by simp [decodeU32, h]⟩
      · exact .inr ⟨"invalid value, expected u32", by simp [decodeU32, h]⟩
  | null => exact .inr ⟨_, rfl⟩
  | bool b => exact .inr ⟨_, rfl⟩
  | numFrac l => exact .inr ⟨_, rfl⟩
  | str s => exact .inr ⟨_, rfl⟩
  | arr xs => exact .inr ⟨_, rfl⟩
  | obj fs => exact .inr ⟨_, rfl⟩

theorem dres_bind_eq_ok {α β : Type} {x : DRes α} {f : α → DRes β} {r : β}
    (h : DRes.bind x f = .ok r) : ∃ a, x = .ok a ∧ f a = .ok r := by
  cases x with
  | ok a => exact ⟨a, rfl, h⟩
  | err e => exact absurd h (by simp [DRes.bind])
  | panicked => exact absurd h (by simp [DRes.bind])

theorem seqNext_eq_ok {α : Type} {d : Json → DRes α} {xs : List Json}
    {p : α × List Json} (h : seqNext d xs = .ok p) :
    ∃ x, xs = x :: p.2 := by
  cases xs with
  | nil => exact absurd h (by simp [seqNext])
  | cons x rest =>
      obtain ⟨a, hx, hok⟩ := dres_bind_eq_ok h
      injection hok with hp
      exact ⟨x, by rw [← hp]⟩

theorem seqEnd_eq_ok {xs : List Json} {u : Unit} (h : seqEnd xs = .ok u) :
    xs = [] := by
  cases xs with
  | nil => rfl
  | cons x rest => exact absurd h (by simp [seqEnd])

theorem decode_draw_ok_arity {v : String} {xs : List Json}
    {r : IncomingRequest}
    (h : decodeIncoming (wireMsg v "draw" (.arr xs)) = .ok r) :
    xs.length = 3 := by
  simp [decodeIncoming, wireMsg, decodeJsonRpcFields, decodeRawIncoming,
    getField, asArr, List.lookup, decodeString_str, dres_bind_ok,
    dres_bindM_ok, dres_pure_eq_ok] at h
  obtain ⟨raw, h, -⟩ := dres_bind_eq_ok h
  obtain ⟨a1, hs1, h⟩ := dres_bind_eq_ok h
  obtain ⟨x1, hx1⟩ := seqNext_eq_ok hs1
  obtain ⟨a2, hs2, h⟩ := dres_bind_eq_ok h
  obtain ⟨x2, hx2⟩ := seqNext_eq_ok hs2
  obtain ⟨a3, hs3, h⟩ := dres_bind_eq_ok h
  obtain ⟨x3, hx3⟩ := seqNext_eq_ok hs3
  obtain ⟨u, hsE, -⟩ := dres_bind_eq_ok h
  simp [hx1, hx2, hx3, seqEnd_eq_ok hsE]

theorem decode_draw_status_ok_arity {v : String} {xs : List Json}
    {r : IncomingRequest}
    (h : decodeIncoming (wireMsg v "draw_status" (.arr xs)) = .ok r) :
    xs.length = 3 := by
  simp [decodeIncoming, wireMsg, decodeJsonRpcFields, decodeRawIncoming,
    getField, asArr, List.lookup, decodeString_str, dres_bind_ok,
    dres_bindM_ok, dres_pure_eq_ok] at h
  obtain ⟨raw, h, -⟩ := dres_bind_eq_ok h
  obtain ⟨a1, hs1, h⟩ := dres_bind_eq_ok h
  obtain ⟨x1, hx1⟩ := seqNext_eq_ok hs1
  obtain ⟨a2, hs2, h⟩ := dres_bind_eq_ok h
  obtain ⟨x2, hx2⟩ := seqNext_eq_ok hs2
  obtain ⟨a3, hs3, h⟩ := dres_bind_eq_ok h
  obtain ⟨x3, hx3⟩ := seqNext_eq_ok hs3
  obtain ⟨u, hsE, -⟩ := dres_bind_eq_ok h
  simp [hx1, hx2, hx3, seqEnd_eq_ok hsE]

theorem decode_menu_show_ok_arity {v : String} {xs : List Json}
    {r : IncomingRequest}
    (h : decodeIncoming (wireMsg v "menu_show" (.arr xs)) = .ok r) :
    xs.length = 5 := by
  simp [decodeIncoming, wireMsg, decodeJsonRpcFields, decodeRawIncoming,
    getField, asArr, List.lookup, decodeString_str, dres_bind_ok,
    dres_bindM_ok, dres_pure_eq_ok] at h
  obtain ⟨raw, h, -⟩ := dres_bind_eq_ok h
  obtain ⟨a1, hs1, h⟩ := dres_bind_eq_ok h
  obtain ⟨x1, hx1⟩ := seqNext_eq_ok hs1
  obtain ⟨a2, hs2, h⟩ := dres_bind_eq_ok h
  obtain ⟨x2, hx2⟩ := seqNext_eq_ok hs2
  obtain ⟨a3, hs3, h⟩ := dres_bind_eq_ok h
  obtain ⟨x3, hx3⟩ := seqNext_eq_ok hs3
  obtain ⟨a4, hs4, h⟩ := dres_bind_eq_ok h
  obtain ⟨x4, hx4⟩ := seqNext_eq_ok hs4
  obtain ⟨a5, hs5, h⟩ := dres_bind_eq_ok h
  obtain ⟨x5, hx5⟩ := seqNext_eq_ok hs5
  obtain ⟨u, hsE, -⟩ := dres_bind_eq_ok h
  simp [hx1, hx2, hx3, hx4, hx5, seqEnd_eq_ok hsE]

theorem decode_menu_select_ok_arity {v : String} {xs : List Json}
    {r : IncomingRequest}
    (h : decodeIncoming (wireMsg v "menu_select" (.arr xs)) = .ok r) :
    xs.length = 1 := by
  simp [decodeIncoming, wireMsg, decodeJsonRpcFields, decodeRawIncoming,
    getField, asArr, List.lookup, decodeString_str, dres_bind_ok,
    dres_bindM_ok, dres_pure_eq_ok] at h
  obtain ⟨raw, h, -⟩ := dres_bind_eq_ok h
  obtain ⟨a1, hs1, h⟩ := dres_bind_eq_ok h
  obtain ⟨x1, hx1⟩ := seqNext_eq_ok hs1
  obtain ⟨u, hsE, -⟩ := dres_bind_eq_ok h
  simp [hx1, seqEnd_eq_ok hsE]

theorem decode_menu_hide_ok_arity {v : String} {xs : List Json}
    {r : IncomingRequest}
    (h : decodeIncoming (wireMsg v "menu_hide" (.arr xs)) = .ok r) :
    xs.length = 0 := by
  simp [decodeIncoming, wireMsg, decodeJsonRpcFields, decodeRawIncoming,
    getField, asArr, List.lookup, decodeString_str, dres_bind_ok,
    dres_bindM_ok, dres_pure_eq_ok] at h
  obtain ⟨raw, h, -⟩ := dres_bind_eq_ok h
  obtain ⟨u, hsE, -⟩ := dres_bind_eq_ok h
  simp [seqEnd_eq_ok hsE]

theorem decode_info_show_ok_arity {v : String} {xs : List Json}
    {r : IncomingRequest}
    (h : decodeIncoming (wireMsg v "info_show" (.arr xs)) = .ok r) :
    xs.length = 5 := by
  simp [decodeIncoming, wireMsg, decodeJsonRpcFields, decodeRawIncoming,
    getField, asArr, List.lookup, decodeString_str, dres_bind_ok,
    dres_bindM_ok, dres_pure_eq_ok] at h
  obtain ⟨raw, h, -⟩ := dres_bind_eq_ok h
  obtain ⟨a1, hs1, h⟩ := dres_bind_eq_ok h
  obtain ⟨x1, hx1⟩ := seqNext_eq_ok hs1
  obtain ⟨a2, hs2, h⟩ := dres_bind_eq_ok h
  obtain ⟨x2, hx2⟩ := seqNext_eq_ok hs2
  obtain ⟨a3, hs3, h⟩ := dres_bind_eq_ok h
  obtain ⟨x3, hx3⟩ := seqNext_eq_ok hs3
  obtain ⟨a4, hs4, h⟩ := dres_bind_eq_ok h
  obtain ⟨x4, hx4⟩ := seqNext_eq_ok hs4
  obtain ⟨a5, hs5, h⟩ := dres_bind_eq_ok h
  obtain ⟨x5, hx5⟩ := seqNext_eq_ok hs5
  obtain ⟨u, hsE, -⟩ := dres_bind_eq_ok h
  simp [hx1, hx2, hx3, hx4, hx5, seqEnd_eq_ok hsE]

theorem decode_info_hide_ok_arity {v : String} {xs : List Json}
    {r : IncomingRequest}
    (h : decodeIncoming (wireMsg v "info_hide" (.arr xs)) = .ok r) :
    xs.length = 0 := by
  simp [decodeIncoming, wireMsg, decodeJsonRpcFields, decodeRawIncoming,
    getField, asArr, List.lookup, decodeString_str, dres_bind_ok,
    dres_bindM_ok, dres_pure_eq_ok] at h
  obtain ⟨raw, h, -⟩ := dres_bind_eq_ok h
  obtain ⟨u, hsE, -⟩ := dres_bind_eq_ok h
  simp [seqEnd_eq_ok hsE]

theorem decode_set_cursor_ok_arity {v : String} {xs : List Json}
    {r : IncomingRequest}
    (h : decodeIncoming (wireMsg v "set_cursor" (.arr xs)) = .ok r) :
    xs.length = 2 := by
  simp [decodeIncoming, wireMsg, decodeJsonRpcFields, decodeRawIncoming,
    getField, asArr, List.lookup, decodeString_str, dres_bind_ok,
    dres_bindM_ok, dres_pure_eq_ok] at h
  obtain ⟨raw, h, -⟩ := dres_bind_eq_ok h
  obtain ⟨a1, hs1, h⟩ := dres_bind_eq_ok h
  obtain ⟨x1, hx1⟩ := seqNext_eq_ok hs1
  obtain ⟨a2, hs2, h⟩ := dres_bind_eq_ok h
  obtain ⟨x2, hx2⟩ := seqNext_eq_ok hs2
  obtain ⟨u, hsE, -⟩ := dres_bind_eq_ok h
  simp [hx1, hx2, seqEnd_eq_ok hsE]

theorem decode_set_ui_options_ok_arity {v : String} {xs : List Json}
    {r : IncomingRequest}
    (h : decodeIncoming (wireMsg v "set_ui_options" (.arr xs)) = .ok r) :
    xs.length = 1 := by
  simp [decodeIncoming, wireMsg, decodeJsonRpcFields, decodeRawIncoming,
    getField, asArr, List.lookup, decodeString_str, dres_bind_ok,
    dres_bindM_ok, dres_pure_eq_ok] at h
  obtain ⟨raw, h, -⟩ := dres_bind_eq_ok h
  obtain ⟨a1, hs1, h⟩ := dres_bind_eq_ok h
  obtain ⟨x1, hx1⟩ := seqNext_eq_ok hs1
  obtain ⟨u, hsE, -⟩ := dres_bind_eq_ok h
  simp [hx1, seqEnd_eq_ok hsE]

theorem decode_refresh_ok_arity {v : String} {xs : List Json}
    {r : IncomingRequest}
    (h : decodeIncoming (wireMsg v "refresh" (.arr xs)) = .ok r) :
    xs.length = 1 := by
  simp [decodeIncoming, wireMsg, decodeJsonRpcFields, decodeRawIncoming,
    getField, asArr, List.lookup, decodeString_str, dres_bind_ok,
    dres_bindM_ok, dres_pure_eq_ok] at h
  obtain ⟨raw, h, -⟩ := dres_bind_eq_ok h
  obtain ⟨a1, hs1, h⟩ := dres_bind_eq_ok h
  obtain ⟨x1, hx1⟩ := seqNext_eq_ok hs1
  obtain ⟨u, hsE, -⟩ := dres_bind_eq_ok h
  simp [hx1, seqEnd_eq_ok hsE]

/-- C4 counterexample: the claim states that for every incoming message any
mismatch between the params array and the selected method arity or slot
types is a MalformedMessage decode error, never a panic. This draw message
has five params slots against the fixed arity three, yet decoding panics:
the slots are decoded left to right before the arity surplus is detected,
and the face in slot two carries the two-byte color token rg, which panics
in the color visitor (the C1 bug). -/
theorem c4_counterexample_slot_panic :
    decodeIncoming (wireMsg "2.0" "draw"
      (.arr [.arr [],
             .obj [("fg", .str "rg"), ("bg", .str "red"),
                   ("attributes", .arr [])],
             .int 0, .int 0, .int 0])) = .panicked := rfl

/-- C4 (amended): an arity mismatch is never silently accepted: for each of
the ten methods, a params array whose length differs from the fixed arity
never decodes successfully. When the mismatch is detected without first
decoding a color token that panics, it surfaces as a MalformedMessage
error: menu_select with the empty array, a two-element array, or a
one-element array whose slot is not a u32 all fail with MalformedMessage
(any non-unit arity does), menu_hide and info_hide require exactly the
empty params array and decode successfully from it, and an unknown method
name is a MalformedMessage error. A mismatched message can still panic when
a malformed color token inside an earlier slot is decoded before the
mismatch is reached (the C1 bug, see the counterexample). -/
theorem c4_arity_mismatch_amended :
    (∀ (v : String) (xs : List Json) (r : IncomingRequest),
        xs.length ≠ 3 →
        decodeIncoming (wireMsg v "draw" (.arr xs)) ≠ .ok r) ∧
    (∀ (v : String) (xs : List Json) (r : IncomingRequest),
        xs.length ≠ 3 →
        decodeIncoming (wireMsg v "draw_status" (.arr xs)) ≠ .ok r) ∧
    (∀ (v : String) (xs : List Json) (r : IncomingRequest),
        xs.length ≠ 5 →
        decodeIncoming (wireMsg v "menu_show" (.arr xs)) ≠ .ok r) ∧
    (∀ (v : String) (xs : List Json) (r : IncomingRequest),
        xs.length ≠ 1 →
        decodeIncoming (wireMsg v "menu_select" (.arr xs)) ≠ .ok r) ∧
    (∀ (v : String) (xs : List Json) (r : IncomingRequest),
        xs.length ≠ 0 →
        decodeIncoming (wireMsg v "menu_hide" (.arr xs)) ≠ .ok r) ∧
    (∀ (v : String) (xs : List Json) (r : IncomingRequest),
        xs.length ≠ 5 →
        decodeIncoming (wireMsg v "info_show" (.arr xs)) ≠ .ok r) ∧
    (∀ (v : String) (xs : List Json) (r : IncomingRequest),
        xs.length ≠ 0 →
        decodeIncoming (wireMsg v "info_hide" (.arr xs)) ≠ .ok r) ∧
    (∀ (v : String) (xs : List Json) (r : IncomingRequest),
        xs.length ≠ 2 →
        decodeIncoming (wireMsg v "set_cursor" (.arr xs)) ≠ .ok r) ∧
    (∀ (v : String) (xs : List Json) (r : IncomingRequest),
        xs.length ≠ 1 →
        decodeIncoming (wireMsg v "set_ui_options" (.arr xs)) ≠ .ok r) ∧
    (∀ (v : String) (xs : List Json) (r : IncomingRequest),
        xs.length ≠ 1 →
        decodeIncoming (wireMsg v "refresh" (.arr xs)) ≠ .ok r) ∧
    (∀ (v : String) (xs : List Json), xs.length ≠ 1 →
        (decodeIncoming
            (wireMsg v "menu_select" (.arr xs))).isMalformed = true) ∧
    (decodeIncoming
        (wireMsg "2.0" "menu_select" (.arr []))).isMalformed = true ∧
    (decodeIncoming
        (wireMsg "2.0" "menu_select"
          (.arr [.int 1, .int 2]))).isMalformed = true ∧
    (decodeIncoming
        (wireMsg "2.0" "menu_select" (.arr [.str "a"]))).isMalformed = true ∧
    (∀ (v : String) (x : Json) (xs : List Json),
        (decodeIncoming
            (wireMsg v "menu_hide" (.arr (x :: xs)))).isMalformed = true) ∧
    (∀ v : String,
        decodeIncoming (wireMsg v "menu_hide" (.arr [])) = .ok .MenuHide) ∧
    (∀ (v : String) (x : Json) (xs : List Json),
        (decodeIncoming
            (wireMsg v "info_hide" (.arr (x :: xs)))).isMalformed = true) ∧
    (∀ v : String,
        decodeIncoming (wireMsg v "info_hide" (.arr [])) = .ok .InfoHide) ∧
    (∀ (v m : String) (p : Json), m ∉ incomingMethods →
        (decodeIncoming (wireMsg v m p)).isMalformed = true) := by
  refine ⟨fun v xs r hl h => hl (decode_draw_ok_arity h),
    fun v xs r hl h => hl (decode_draw_status_ok_arity h),
    fun v xs r hl h => hl (decode_menu_show_ok_arity h),
    fun v xs r hl h => hl (decode_menu_select_ok_arity h),
    fun v xs r hl h => hl (decode_menu_hide_ok_arity h),
    fun v xs r hl h => hl (decode_info_show_ok_arity h),
    fun v xs r hl h => hl (decode_info_hide_ok_arity h),
    fun v xs r hl h => hl (decode_set_cursor_ok_arity h),
    fun v xs r hl h => hl (decode_set_ui_options_ok_arity h),
    fun v xs r hl h => hl (decode_refresh_ok_arity h),
    ?_, rfl, rfl, rfl, fun v x xs => rfl, fun v => rfl,
    fun v x xs => rfl, fun v => rfl, ?_⟩
  · intro v xs h
    rcases xs with _ | ⟨x, _ | ⟨y, ys⟩⟩
    · rfl
    · exact absurd rfl h
    · rcases decodeU32_shape x with ⟨n, hx⟩ | ⟨msg, hx⟩ <;>
        simp [decodeIncoming, wireMsg, decodeJsonRpcFields,
          decodeRawIncoming, getField, asArr, seqNext, seqEnd, List.lookup,
          decodeString_str, hx, dres_bind_ok, dres_bindM_ok, dres_bind_err,
          dres_bindM_err, dres_pure_eq_ok, DRes.isMalformed]
  · intro v m p hm
    simp only [incomingMethods, List.mem_cons, List.not_mem_nil, or_false,
      not_or] at hm
    obtain ⟨h1, h2, h3, h4, h5, h6, h7, h8, h9, h10⟩ := hm
    simp [decodeIncoming, wireMsg, decodeJsonRpcFields, decodeRawIncoming,
      getField, List.lookup, decodeString_str, dres_bind_ok, dres_bindM_ok,
      dres_bind_err, dres_bindM_err, dres_pure_eq_ok, DRes.isMalformed,
      h1, h2, h3, h4, h5, h6, h7, h8, h9, h10]

/-- Witness for C4: the draw never-accepted conjunct applied at the empty
params array, the menu_select MalformedMessage conjunct applied at the
empty params array, and the unknown-method conjunct applied at the method
name bogus. -/
theorem c4_arity_mismatch_amended_witness :
    decodeIncoming (wireMsg "2.0" "draw" (.arr [])) ≠ .ok .MenuHide ∧
    (decodeIncoming
        (wireMsg "3.0" "menu_select" (.arr []))).isMalformed = true ∧
    (decodeIncoming (wireMsg "2.0" "bogus" (.arr []))).isMalformed = true :=
  ⟨c4_arity_mismatch_amended.1 "2.0" [] .MenuHide (by decide),
   c4_arity_mismatch_amended.2.2.2.2.2.2.2.2.2.2.1 "3.0" [] (by decide),
   c4_arity_mismatch_amended.2.2.2.2.2.2.2.2.2.2.2.2.2.2.2.2.2.2 "2.0"
     "bogus" (.arr []) (by decide)⟩

/-- C5: the Keys variant encodes its key list as the params array directly,
one slot per key string, not wrapped in a single-element array, unlike the
singleton-tuple wrapping used by Scroll and MenuSelect. -/
theorem c5_keys_params_direct :
    (∀ ks : List String,
        paramsOf (serializeOutgoing (.Keys ks)) =
          some (.arr (ks.map Json.str))) ∧
    paramsOf (serializeOutgoing (.Keys ["a", "b"])) =
      some (.arr [.str "a", .str "b"]) ∧
    paramsOf (serializeOutgoing (.Keys ["a", "b"])) ≠
      some (.arr [.arr [.str "a", .str "b"]]) ∧
    (∀ n : Nat,
        paramsOf (serializeOutgoing (.Scroll n)) =
          some (.arr [.int n])) ∧
    (∀ n : Nat,
        paramsOf (serializeOutgoing (.MenuSelect n)) =
          some (.arr [.int n])) := by
  refine ⟨fun ks => rfl, rfl, ?_, fun n => rfl, fun n => rfl⟩
  intro h
  have h2 : Json.arr [.str "a", .str "b"] =
      Json.arr [.arr [.str "a", .str "b"]] := Option.some.inj h
  have h3 : ([.str "a", .str "b"] : List Json) =
      [.arr [.str "a", .str "b"]] := by injection h2
  have h4 : Json.str "a" = Json.arr [.str "a", .str "b"] :=
    (List.cons.inj h3).1
  exact Json.noConfusion h4

/-- C6: encoding an OutgoingRequest is a total function (every variant is
covered by a defining equation below, so no domain value can fail), the
named fields are written into the params array in the documented order, and
the output object carries the jsonrpc version marker set to the literal 2.0
ahead of the method and params fields. -/
theorem c6_encode_total_ordered :
    (∀ ks, serializeOutgoing (.Keys ks) =
        .obj [("jsonrpc", .str "2.0"), ("method", .str "keys"),
              ("params", .arr (ks.map Json.str))]) ∧
    (∀ rows columns, serializeOutgoing (.Resize rows columns) =
        .obj [("jsonrpc", .str "2.0"), ("method", .str "resize"),
              ("params", .arr [.int rows, .int columns])]) ∧
    (∀ amount, serializeOutgoing (.Scroll amount) =
        .obj [("jsonrpc", .str "2.0"), ("method", .str "scroll"),
              ("params", .arr [.int amount])]) ∧
    (∀ line column, serializeOutgoing (.MouseMove line column) =
        .obj [("jsonrpc", .str "2.0"), ("method", .str "mouse_move"),
              ("params", .arr [.int line, .int column])]) ∧
    (∀ button line column,
        serializeOutgoing (.MousePress button line column) =
          .obj [("jsonrpc", .str "2.0"), ("method", .str "mouse_press"),
                ("params", .arr [.str button, .int line, .int column])]) ∧
    (∀ button line column,
        serializeOutgoing (.MouseRelease button line column) =
          .obj [("jsonrpc", .str "2.0"), ("method", .str "mouse_release"),
                ("params", .arr [.str button, .int line, .int column])]) ∧
    (∀ index, serializeOutgoing (.MenuSelect index) =
        .obj [("jsonrpc", .str "2.0"), ("method", .str "menu_select"),
              ("params", .arr [.int index])]) :=
  ⟨fun _ => rfl, fun _ _ => rfl, fun _ => rfl, fun _ _ => rfl,
   fun _ _ _ => rfl, fun _ _ _ => rfl, fun _ => rfl⟩

/-- C7: decoding requires the jsonrpc version-marker field to be present (a
message object without it fails), while its string value is never compared
against 2.0 or inspected at all (decoding is invariant under changing it,
and any string value is accepted); the structural requirement is only that
the value be a string, so a non-string marker fails the envelope decode. -/
theorem c7_version_marker_presence_only :
    (∀ fields : List (String × Json), fields.lookup "jsonrpc" = none →
        (decodeIncoming (.obj fields)).isMalformed = true) ∧
    (∀ (s t : String) (rest : List (String × Json)),
        decodeIncoming (.obj (("jsonrpc", .str s) :: rest)) =
          decodeIncoming (.obj (("jsonrpc", .str t) :: rest))) ∧
    (∀ s : String,
        decodeIncoming (wireMsg s "menu_select" (.arr [.int 3])) =
          .ok (.MenuSelect 3)) ∧
    (decodeIncoming
        (.obj [("jsonrpc", .int 2), ("method", .str "refresh"),
               ("params", .arr [.bool true])])).isMalformed = true := by
  refine ⟨?_, fun s t rest => rfl, fun s => rfl, rfl⟩
  intro fields h
  simp [decodeIncoming, decodeJsonRpcFields, h, dres_bind_err,
    DRes.isMalformed, DRes.bind]

/-- Witness for C7: the missing-marker conjunct applied to a concrete
object that has method and params fields but no jsonrpc field. -/
theorem c7_version_marker_presence_only_witness :
    (decodeIncoming
        (.obj [("method", .str "menu_hide"),
               ("params", .arr [])])).isMalformed = true :=
  c7_version_marker_presence_only.1
    [("method", .str "menu_hide"), ("params", .arr [])] rfl

/-- C8: the codec is purely functional, so encoding is deterministic (the
same OutgoingRequest value always encodes to the identical JSON value) and
decoding is deterministic (the same input JSON value always decodes to the
identical result, success or error alike). -/
theorem c8_codec_deterministic :
    (∀ r : OutgoingRequest, serializeOutgoing r = serializeOutgoing r) ∧
    (∀ j : Json, decodeIncoming j = decodeIncoming j) :=
  ⟨fun _ => rfl, fun _ => rfl⟩

/-- C9: attribute decode succeeds exactly on the nine lowercase snake-case
keywords, each yielding the corresponding variant, and any other string
token fails with an InvalidAttribute decode error. -/
theorem c9_attribute_keywords :
    decodeAttribute (.str "underline") = .ok .Underline ∧
    decodeAttribute (.str "reverse") = .ok .Reverse ∧
    decodeAttribute (.str "blink") = .ok .Blink ∧
    decodeAttribute (.str "bold") = .ok .Bold ∧
    decodeAttribute (.str "dim") = .ok .Dim ∧
    decodeAttribute (.str "italic") = .ok .Italic ∧
    decodeAttribute (.str "final_fg") = .ok .FinalFg ∧
    decodeAttribute (.str "final_bg") = .ok .FinalBg ∧
    decodeAttribute (.str "final_attr") = .ok .FinalAttr ∧
    (∀ s : String, s ∉ attributeKeywords →
        decodeAttribute (.str s) = .err (.invalidAttribute s)) := by
  refine ⟨rfl, rfl, rfl, rfl, rfl, rfl, rfl, rfl, rfl, ?_⟩
  intro s hs
  simp only [attributeKeywords, List.mem_cons, List.not_mem_nil, or_false,
    not_or] at hs
  obtain ⟨h1, h2, h3, h4, h5, h6, h7, h8, h9⟩ := hs
  simp [decodeAttribute, h1, h2, h3, h4, h5, h6, h7, h8, h9]

/-- Witness for C9: the unknown-token conjunct applied at the capitalized
token Bold, which is not one of the lowercase keywords. -/
theorem c9_attribute_keywords_witness :
    decodeAttribute (.str "Bold") = .err (.invalidAttribute "Bold") :=
  c9_attribute_keywords.2.2.2.2.2.2.2.2.2 "Bold" (by decide)

/-- C10: every numeric wire field deserializes as a 32-bit unsigned
integer: an integer in 0 .. 4294967295 decodes to its value, while a
negative integer, an integer above 4294967295, or a fractional JSON number
fails the decode; at message level menu_select illustrates each case, and a
coordinate line field behaves the same way. -/
theorem c10_numeric_fields_u32 :
    (∀ i : Int, i < 0 ∨ 4294967295 < i →
        (decodeU32 (.int i)).isMalformed = true) ∧
    (∀ i : Int, 0 ≤ i → i ≤ 4294967295 →
        decodeU32 (.int i) = .ok i.toNat) ∧
    (∀ lit : String, (decodeU32 (.numFrac lit)).isMalformed = true) ∧
    (decodeIncoming
        (wireMsg "2.0" "menu_select"
          (.arr [.int (-1)]))).isMalformed = true ∧
    (decodeIncoming
        (wireMsg "2.0" "menu_select"
          (.arr [.int 4294967296]))).isMalformed = true ∧
    (decodeIncoming
        (wireMsg "2.0" "menu_select"
          (.arr [.numFrac "1.5"]))).isMalformed = true ∧
    decodeIncoming
        (wireMsg "2.0" "menu_select" (.arr [.int 4294967295])) =
      .ok (.MenuSelect 4294967295) ∧
    (∀ i : Int, i < 0 ∨ 4294967295 < i →
        (decodeCoord
            (.obj [("line", .int i),
                   ("column", .int 0)])).isMalformed = true) := by
  refine ⟨?_, ?_, fun lit => rfl, rfl, rfl, rfl, rfl, ?_⟩
  · intro i h
    have hc : ¬(0 ≤ i ∧ i ≤ 4294967295) := by omega
    simp [decodeU32, hc, DRes.isMalformed]
  · intro i h1 h2
    simp [decodeU32, h1, h2]
  · intro i h
    have hc : ¬(0 ≤ i ∧ i ≤ 4294967295) := by omega
    simp [decodeCoord, getField, List.lookup, decodeU32, hc, dres_bind_ok,
      dres_bindM_ok, dres_bind_err, dres_bindM_err, dres_pure_eq_ok,
      DRes.isMalformed]

/-- Witness for C10: the out-of-range conjuncts applied at the concrete
values minus five and two to the 33rd, and the in-range conjunct at 12. -/
theorem c10_numeric_fields_u32_witness :
    (decodeU32 (.int (-5))).isMalformed = true ∧
    (decodeU32 (.int 8589934592)).isMalformed = true ∧
    decodeU32 (.int 12) = .ok 12 ∧
    (decodeCoord
        (.obj [("line", .int (-5)),
               ("column", .int 0)])).isMalformed = true :=
  ⟨c10_numeric_fields_u32.1 (-5) (by omega),
   c10_numeric_fields_u32.1 8589934592 (by omega),
   c10_numeric_fields_u32.2.1 12 (by omega) (by omega),
   c10_numeric_fields_u32.2.2.2.2.2.2.2 (-5) (by omega)⟩
